import Mathlib

/-!
Verification of the browser state synchronization and element-interaction
core of `src/browser/service.py` (class `BrowserService`).

Shallow embedding conventions:
- A live browser connection is modelled by an oracle `Browser` whose fields
  are the primitive driver calls the source makes; each primitive returns
  `Except String _` (the `String` is the raised exception message).
- Interaction procedures return `Except BError Unit × List Ev`: the outcome
  together with the ordered trace of browser interactions performed.
- Time units are rationals; the page-ready synchronizer is modelled as a
  pure function from the resolution time of the readiness signal to the
  timing behaviour of one `wait_for_page_load` call.
- The session lifecycle (`init` / `_get_driver` / `close` / `__del__`) is an
  explicit state machine over `SessionState`, with connection handles drawn
  from a counter; `live` records handles created and not yet quit.
-/

namespace BrowserUse

/-- A resolved element handle, as returned by the driver primitives. -/
structure Elem where
  id : Nat
deriving DecidableEq

/-- Oracle for the underlying Selenium driver primitives used by
`BrowserService`.  Each field is one primitive call; `Except.error c`
means the call raised an exception with message `c`. -/
structure Browser where
  /-- `WebDriverWait(driver, 10).until(EC.element_to_be_clickable((By.XPATH, xpath)))`. -/
  waitClickable : String → Except String Elem
  /-- `driver.find_element(By.ID, id_value)`. -/
  findById : String → Except String Elem
  /-- `driver.find_element(By.XPATH, xpath)` (immediate, no waiting). -/
  findByXpath : String → Except String Elem
  /-- `element.is_displayed()`. -/
  displayed : Elem → Bool
  /-- `element.is_enabled()`. -/
  enabled : Elem → Bool
  /-- `driver.execute_script(arguments[0].click(), element)`. -/
  jsClick : Elem → Except String Unit
  /-- `driver.execute_script(scrollIntoView + click, element)` (stage 3 force click). -/
  scrollClick : Elem → Except String Unit
  /-- `ActionChains(driver).move_to_element(element).perform()`. -/
  moveTo : Elem → Except String Unit
  /-- `driver.execute_script(arguments[0].value = empty, element)`: direct value reset. -/
  clearValue : Elem → Except String Unit
  /-- `element.send_keys(text)`: simulated keystrokes. -/
  sendKeys : Elem → String → Except String Unit

/-- One observable browser interaction, in the order performed. -/
inductive Ev where
  /-- Bounded wait for the element at `xpath` to become clickable. -/
  | evWaitClickable (timeout : ℚ) (xpath : String)
  /-- Programmatic (JavaScript) click. -/
  | evJsClick
  /-- One call of `wait_for_page_load` (the Page-Ready Synchronizer). -/
  | evPageLoad
  /-- Direct lookup by identifier. -/
  | evFindById (idv : String)
  /-- Raw lookup by locator, without waiting. -/
  | evFindByXpath (xpath : String)
  /-- Force scroll into view followed by a programmatic click. -/
  | evScrollClick
  /-- Scroll into view via `ActionChains.move_to_element`. -/
  | evMoveTo
  /-- Clear the element value via a direct JavaScript value reset. -/
  | evClearValue
  /-- Simulated keystrokes of `text`. -/
  | evSendKeys (text : String)
  /-- `DomService.get_clickable_elements()` (external Element Indexer). -/
  | evGetClickableElements
  /-- Read `driver.current_url`. -/
  | evReadUrl
  /-- Read `driver.title`. -/
  | evReadTitle
deriving DecidableEq

/-- The exceptions raised by the interaction procedures.  The source raises
plain `Exception(msg)`; each constructor records one raise site together
with the data interpolated into its message:
- `elementNotFound i`: `Element index {i} not found in selector map`
  (service.py lines 258 and 320);
- `inputFailed x c`: `Failed to input text into element with xpath: {x}. Error: {c}`
  (line 252);
- `clickFailed x c`: `Failed to click element with xpath: {x}. Error: {c}`
  (line 312). -/
inductive BError where
  | elementNotFound (index : Int)
  | inputFailed (xpath : String) (cause : String)
  | clickFailed (xpath : String) (cause : String)
deriving DecidableEq

/-- Modelled from the spec: the State Snapshot (`BrowserState` from
`src/browser/views.py`, which is not under `src/`): current url, title,
the index to Locator map (a Python dict, here an association list with
unique keys) and the ordered element descriptors.  Field names follow the
constructor call in `get_updated_state` (service.py lines 137-142). -/
structure BrowserState where
  items : List String
  selector_map : List (Int × String)
  url : String
  title : String
deriving DecidableEq

/-- Python dict lookup on the selector map: `state.selector_map[index]`,
`none` exactly when `index not in state.selector_map`. -/
def lookupSel (m : List (Int × String)) (i : Int) : Option String :=
  match m with
  | [] => none
  | (k, v) :: rest => if k = i then some v else lookupSel rest i

/-- Embeds `BrowserService._input_text_by_xpath` (service.py lines 232-254):
wait for clickable (timeout 10), scroll into view, JavaScript value reset,
send keys, then `wait_for_page_load`; any exception in the body is caught
and re-raised as `inputFailed` wrapping the xpath and the cause. -/
def input_text_by_xpath (b : Browser) (xpath text : String) :
    Except BError Unit × List Ev :=
  match b.waitClickable xpath with
  | .error c => (.error (.inputFailed xpath c), [.evWaitClickable 10 xpath])
  | .ok el =>
    match b.moveTo el with
    | .error c => (.error (.inputFailed xpath c),
        [.evWaitClickable 10 xpath, .evMoveTo])
    | .ok _ =>
      match b.clearValue el with
      | .error c => (.error (.inputFailed xpath c),
          [.evWaitClickable 10 xpath, .evMoveTo, .evClearValue])
      | .ok _ =>
        match b.sendKeys el text with
        | .error c => (.error (.inputFailed xpath c),
            [.evWaitClickable 10 xpath, .evMoveTo, .evClearValue, .evSendKeys text])
        | .ok _ => (.ok (),
            [.evWaitClickable 10 xpath, .evMoveTo, .evClearValue,
             .evSendKeys text, .evPageLoad])

/-- Embeds `BrowserService.input_text_by_index` (service.py lines 256-261):
raise `elementNotFound` when the index is absent from the selector map,
before any driver access; otherwise delegate to the xpath procedure. -/
def input_text_by_index (b : Browser) (index : Int) (text : String)
    (state : BrowserState) : Except BError Unit × List Ev :=
  match lookupSel state.selector_map index with
  | none => (.error (.elementNotFound index), [])
  | some xpath => input_text_by_xpath b xpath text

/-- Python substring containment `sub in s`, computed through `str.split`:
`sub` occurs in `s` iff splitting on `sub` yields more than one piece. -/
def pyContains (s sub : String) : Bool := (s.splitOn sub).length != 1

/-- Python `xpath.split(given id= marker)[-1].split(right bracket)[0]`
(service.py line 287): the text between the last `id=` and the next `]`. -/
def pyIdValue (xpath : String) : String :=
  (((xpath.splitOn "id=").getLastD "").splitOn "]").headD ""

/-- Embeds `BrowserService._click_element_by_xpath` (service.py lines 263-312).
Stage 1 (lines 272-281): bounded wait for clickable then JavaScript click
then synchronize; its exception is absorbed (`except: pass`).
Stage 2 (lines 284-294): only when the locator contains `id=`, direct lookup
by the extracted identifier, clicking (then synchronizing) only when the
element reports displayed and enabled; exceptions absorbed, and a found but
non-interactable element falls through without returning.
Stage 3 (lines 297-309): raw lookup, force scroll into view plus click; its
failure raises, and the outer handler (lines 311-312) wraps that raise as
`clickFailed` carrying the xpath and the stage 3 message. -/
def click_element_by_xpath (b : Browser) (xpath : String) :
    Except BError Unit × List Ev :=
  let a1 : Except String Unit × List Ev :=
    match b.waitClickable xpath with
    | .error c => (.error c, [.evWaitClickable 10 xpath])
    | .ok el =>
      match b.jsClick el with
      | .error c => (.error c, [.evWaitClickable 10 xpath, .evJsClick])
      | .ok _ => (.ok (), [.evWaitClickable 10 xpath, .evJsClick, .evPageLoad])
  match a1 with
  | (.ok _, t1) => (.ok (), t1)
  | (.error _, t1) =>
    let a2 : Except String Bool × List Ev :=
      if pyContains xpath "id=" then
        match b.findById (pyIdValue xpath) with
        | .error c => (.error c, [.evFindById (pyIdValue xpath)])
        | .ok el =>
          if b.displayed el && b.enabled el then
            match b.jsClick el with
            | .error c => (.error c, [.evFindById (pyIdValue xpath), .evJsClick])
            | .ok _ => (.ok true,
                [.evFindById (pyIdValue xpath), .evJsClick, .evPageLoad])
          else (.ok false, [.evFindById (pyIdValue xpath)])
      else (.ok false, [])
    match a2 with
    | (.ok true, t2) => (.ok (), t1 ++ t2)
    | (.ok false, t2) | (.error _, t2) =>
      match b.findByXpath xpath with
      | .error c =>
        (.error (.clickFailed xpath ("Failed to click element: " ++ c)),
         t1 ++ t2 ++ [.evFindByXpath xpath])
      | .ok el =>
        match b.scrollClick el with
        | .error c =>
          (.error (.clickFailed xpath ("Failed to click element: " ++ c)),
           t1 ++ t2 ++ [.evFindByXpath xpath, .evScrollClick])
        | .ok _ =>
          (.ok (), t1 ++ t2 ++ [.evFindByXpath xpath, .evScrollClick, .evPageLoad])

/-- Embeds `BrowserService.click_element_by_index` (service.py lines 314-323):
raise `elementNotFound` when the index is absent from the selector map,
before any driver access; otherwise delegate to the xpath chain. -/
def click_element_by_index (b : Browser) (index : Int) (state : BrowserState) :
    Except BError Unit × List Ev :=
  match lookupSel state.selector_map index with
  | none => (.error (.elementNotFound index), [])
  | some xpath => click_element_by_xpath b xpath

/-- A concrete driver oracle on which every primitive succeeds. -/
def bAllOK : Browser where
  waitClickable := fun _ => .ok ⟨0⟩
  findById := fun _ => .ok ⟨0⟩
  findByXpath := fun _ => .ok ⟨0⟩
  displayed := fun _ => true
  enabled := fun _ => true
  jsClick := fun _ => .ok ()
  scrollClick := fun _ => .ok ()
  moveTo := fun _ => .ok ()
  clearValue := fun _ => .ok ()
  sendKeys := fun _ _ => .ok ()

/-- A concrete driver oracle on which every primitive fails. -/
def bAllFail : Browser where
  waitClickable := fun _ => .error "timeout"
  findById := fun _ => .error "no such element"
  findByXpath := fun _ => .error "no such element"
  displayed := fun _ => false
  enabled := fun _ => false
  jsClick := fun _ => .error "click raised"
  scrollClick := fun _ => .error "click raised"
  moveTo := fun _ => .error "move raised"
  clearValue := fun _ => .error "clear raised"
  sendKeys := fun _ _ => .error "keys raised"

/-- A concrete snapshot whose selector map binds index 0 to one locator. -/
def stateOne : BrowserState :=
  { items := [], selector_map := [(0, "//input")], url := "u", title := "t" }

/-- C1: for every snapshot and every index absent from its selector map,
both `click_element_by_index` and `input_text_by_index` fail with
`elementNotFound` carrying the requested index, with an empty interaction
trace (zero driver calls, hence no lazy connection creation) and a single
raise (no internal retry). -/
theorem C1_missing_index_rejected (b : Browser) (i : Int) (S : BrowserState)
    (text : String) (h : lookupSel S.selector_map i = none) :
    click_element_by_index b i S = (.error (.elementNotFound i), []) ∧
    input_text_by_index b i text S = (.error (.elementNotFound i), []) := by
  constructor
  · simp [click_element_by_index, h]
  · simp [input_text_by_index, h]

/-- Witness for C1 at index 5 and the concrete snapshot `stateOne`. -/
theorem C1_missing_index_rejected_witness :
    lookupSel stateOne.selector_map 5 = none ∧
    click_element_by_index bAllOK 5 stateOne = (.error (.elementNotFound 5), []) ∧
    input_text_by_index bAllOK 5 "hello" stateOne =
      (.error (.elementNotFound 5), []) :=
  ⟨by decide, C1_missing_index_rejected bAllOK 5 stateOne "hello" (by decide)⟩

/-- Helper: the xpath click chain either succeeds or fails with
`clickFailed` wrapping the original xpath and the stage 3 raise. -/
theorem clickXpath_cases (b : Browser) (x : String) :
    (click_element_by_xpath b x).1 = .ok () ∨
    ∃ c, (click_element_by_xpath b x).1 =
      .error (.clickFailed x ("Failed to click element: " ++ c)) := by
  unfold click_element_by_xpath
  repeat' split
  all_goals simp_all

/-- C2: for every snapshot and every index present in its selector map,
`click_element_by_index` either succeeds or fails with `clickFailed`
(the ActionFailed of the spec) carrying the resolved locator; it never
fails with `elementNotFound`. -/
theorem C2_valid_index_never_not_found (b : Browser) (i : Int)
    (S : BrowserState) (xpath : String)
    (h : lookupSel S.selector_map i = some xpath) :
    ((click_element_by_index b i S).1 = .ok () ∨
      ∃ c, (click_element_by_index b i S).1 = .error (.clickFailed xpath c)) ∧
    ∀ j, (click_element_by_index b i S).1 ≠ .error (.elementNotFound j) := by
  have hbase : click_element_by_index b i S = click_element_by_xpath b xpath := by
    simp [click_element_by_index, h]
  rw [hbase]
  rcases clickXpath_cases b xpath with hok | ⟨c, herr⟩
  · exact ⟨Or.inl hok, by intro j hj; rw [hok] at hj; exact Except.noConfusion hj⟩
  · refine ⟨Or.inr ⟨_, herr⟩, ?_⟩
    intro j hj
    rw [herr] at hj
    exact absurd (Except.error.inj hj) (by intro hx; exact BError.noConfusion hx)

/-- Witness for C2 at index 0 of `stateOne` on the all-failing driver:
the call fails with `clickFailed`, not `elementNotFound`. -/
theorem C2_valid_index_never_not_found_witness :
    lookupSel stateOne.selector_map 0 = some "//input" ∧
    (((click_element_by_index bAllFail 0 stateOne).1 = .ok () ∨
      ∃ c, (click_element_by_index bAllFail 0 stateOne).1 =
        .error (.clickFailed "//input" c)) ∧
    ∀ j, (click_element_by_index bAllFail 0 stateOne).1 ≠
      .error (.elementNotFound j)) :=
  ⟨by decide,
   C2_valid_index_never_not_found bAllFail 0 stateOne "//input" (by decide)⟩

/-- Spec stage 1 (spec section 4.4, click fallback chain item 1): wait
(bounded timeout, 10 time units) for the element to become clickable; on
success invoke a programmatic click and run the Page-Ready Synchronizer.
Failure reports the exception message of the failing primitive. -/
def specStageWait (b : Browser) (xpath : String) :
    Except String Unit × List Ev :=
  match b.waitClickable xpath with
  | .error c => (.error c, [.evWaitClickable 10 xpath])
  | .ok el =>
    match b.jsClick el with
    | .error c => (.error c, [.evWaitClickable 10 xpath, .evJsClick])
    | .ok _ => (.ok (), [.evWaitClickable 10 xpath, .evJsClick, .evPageLoad])

/-- Spec stage 2 (chain item 2): only when the locator expression contains
an identifier fragment, extract that identifier and attempt a direct lookup
by identifier; when found and the element reports visible and enabled,
invoke a programmatic click, synchronize and return.  Every other outcome
(no fragment, lookup failure, non-interactable element, click failure) is a
failure of this strategy. -/
def specStageById (b : Browser) (xpath : String) :
    Except String Unit × List Ev :=
  if pyContains xpath "id=" then
    match b.findById (pyIdValue xpath) with
    | .error c => (.error c, [.evFindById (pyIdValue xpath)])
    | .ok el =>
      if b.displayed el && b.enabled el then
        match b.jsClick el with
        | .error c => (.error c, [.evFindById (pyIdValue xpath), .evJsClick])
        | .ok _ => (.ok (), [.evFindById (pyIdValue xpath), .evJsClick, .evPageLoad])
      else (.error "element not interactable", [.evFindById (pyIdValue xpath)])
  else (.error "no identifier fragment", [])

/-- Spec stage 3 (chain item 3): locate the element by its raw locator
without waiting, force-scroll it into view and invoke a programmatic click
regardless of reported visibility or enabled state; synchronize.  This
final stage raises its failure; the message of that raise is
`Failed to click element: {cause}` (service.py line 309). -/
def specStageForce (b : Browser) (xpath : String) :
    Except String Unit × List Ev :=
  match b.findByXpath xpath with
  | .error c => (.error ("Failed to click element: " ++ c), [.evFindByXpath xpath])
  | .ok el =>
    match b.scrollClick el with
    | .error c => (.error ("Failed to click element: " ++ c),
        [.evFindByXpath xpath, .evScrollClick])
    | .ok _ => (.ok (), [.evFindByXpath xpath, .evScrollClick, .evPageLoad])

/-- Spec chain reduction (spec sections 4.4 and 9): run an ordered list of
strategies until one succeeds, absorbing each failure; when the list is
exhausted, fail with ActionFailed (`clickFailed`) wrapping the original
locator and the cause reported by the last strategy attempted. -/
def runChain (b : Browser) (xpath : String) :
    List (Browser → String → Except String Unit × List Ev) → String →
    List Ev → Except BError Unit × List Ev
  | [], lastCause, acc => (.error (.clickFailed xpath lastCause), acc)
  | st :: rest, _, acc =>
    match st b xpath with
    | (.ok _, t) => (.ok (), acc ++ t)
    | (.error c, t) => runChain b xpath rest c (acc ++ t)

/-- Modelled from the spec: the whole click fallback chain of spec
section 4.4 as an ordered three-strategy reduction. -/
def clickChainSpec (b : Browser) (xpath : String) :
    Except BError Unit × List Ev :=
  runChain b xpath [specStageWait, specStageById, specStageForce] "" []

/-- Unfolding equation of `runChain` on the empty strategy list. -/
theorem runChain_nil (b : Browser) (x lc : String) (acc : List Ev) :
    runChain b x [] lc acc = (.error (.clickFailed x lc), acc) := rfl

/-- Unfolding equation of `runChain` on a strategy cons cell. -/
theorem runChain_cons (b : Browser) (x lc : String) (acc : List Ev)
    (st : Browser → String → Except String Unit × List Ev)
    (rest : List (Browser → String → Except String Unit × List Ev)) :
    runChain b x (st :: rest) lc acc =
      match st b x with
      | (.ok _, t) => (.ok (), acc ++ t)
      | (.error c, t) => runChain b x rest c (acc ++ t) := rfl

/-- C3: for a valid index, `click_element_by_index` resolves the locator
and behaves exactly as the ordered three-stage fallback chain of the spec:
stage 1 bounded wait plus programmatic click plus synchronization; stage 2
gated on an identifier fragment in the locator, clicking only a visible and
enabled element; stage 3 raw lookup, force scroll and unconditional click;
each stage failure absorbed and only the final failure surfaced as
`clickFailed` wrapping the cause and the original locator. -/
theorem C3_fallback_chain (b : Browser) (i : Int) (S : BrowserState)
    (xpath : String) (h : lookupSel S.selector_map i = some xpath) :
    click_element_by_index b i S = clickChainSpec b xpath := by
  have hbase : click_element_by_index b i S = click_element_by_xpath b xpath := by
    simp [click_element_by_index, h]
  rw [hbase]
  unfold click_element_by_xpath
  repeat' split
  all_goals simp_all [clickChainSpec, runChain_cons, runChain_nil,
    specStageWait, specStageById, specStageForce]
  all_goals repeat' split
  all_goals try split_ifs at *
  all_goals try simp_all
  all_goals try casesm* _ ∧ _
  all_goals try subst_vars
  all_goals try simp_all

/-- Witness for C3 at index 0 of `stateOne` on the all-failing driver. -/
theorem C3_fallback_chain_witness :
    lookupSel stateOne.selector_map 0 = some "//input" ∧
    click_element_by_index bAllFail 0 stateOne = clickChainSpec bAllFail "//input" :=
  ⟨by decide, C3_fallback_chain bAllFail 0 stateOne "//input" (by decide)⟩

/-- The canonical interaction sequence of the text-input procedure:
bounded 10-unit wait for clickable, scroll into view, direct value reset,
simulated keystrokes, Page-Ready Synchronizer. -/
def inputTrace (xpath text : String) : List Ev :=
  [.evWaitClickable 10 xpath, .evMoveTo, .evClearValue, .evSendKeys text, .evPageLoad]

/-- C8: for a valid index, a successful text input performs exactly, in
order: the bounded 10-time-unit clickable wait, the scroll into view, the
direct value reset (`evClearValue` models the JavaScript value reset, not
key presses), the simulated keystrokes of the supplied text, and the
Page-Ready Synchronizer. -/
theorem C8_input_procedure_order (b : Browser) (i : Int) (S : BrowserState)
    (text xpath : String) (h : lookupSel S.selector_map i = some xpath)
    (hok : (input_text_by_index b i text S).1 = .ok ()) :
    (input_text_by_index b i text S).2 = inputTrace xpath text := by
  have hbase : input_text_by_index b i text S = input_text_by_xpath b xpath text := by
    simp [input_text_by_index, h]
  rw [hbase] at hok ⊢
  unfold input_text_by_xpath at hok ⊢
  repeat' split at hok
  all_goals simp_all [inputTrace]

/-- Witness for C8 at index 0 of `stateOne` on the all-succeeding driver. -/
theorem C8_input_procedure_order_witness :
    lookupSel stateOne.selector_map 0 = some "//input" ∧
    (input_text_by_index bAllOK 0 "hi" stateOne).1 = .ok () ∧
    (input_text_by_index bAllOK 0 "hi" stateOne).2 = inputTrace "//input" "hi" :=
  ⟨by decide, by rfl,
   C8_input_procedure_order bAllOK 0 stateOne "hi" "//input" (by decide) (by rfl)⟩

/-- Counterexample to C7 as stated: the failure raised by
`input_text_by_index` does not wrap the text length.  Two calls that differ
only in the text, failing at the same step, raise the identical exception,
although the text lengths differ; hence the exception cannot carry the
text length (nor the text content). -/
theorem C7_no_text_length_cex :
    (input_text_by_index bAllFail 0 "a" stateOne).1 =
      (input_text_by_index bAllFail 0 "abc" stateOne).1 ∧
    (input_text_by_index bAllFail 0 "a" stateOne).1 =
      .error (.inputFailed "//input" "timeout") ∧
    ("a".length ≠ "abc".length) :=
  ⟨by rfl, by rfl, by decide⟩

/-- C7 (amended): `input_text_by_index` on a valid index is single-attempt
(its interaction trace is always a take-prefix of the one canonical
sequence, so no fallback chain and no retry is ever run) and any failure
fails with `inputFailed` wrapping the original locator and the underlying
cause. -/
theorem C7_input_single_attempt (b : Browser) (i : Int) (S : BrowserState)
    (text xpath : String) (h : lookupSel S.selector_map i = some xpath) :
    (∃ n, n ≤ 5 ∧
      (input_text_by_index b i text S).2 = (inputTrace xpath text).take n) ∧
    ((input_text_by_index b i text S).1 = .ok () ∨
      ∃ c, (input_text_by_index b i text S).1 = .error (.inputFailed xpath c)) := by
  have hbase : input_text_by_index b i text S = input_text_by_xpath b xpath text := by
    simp [input_text_by_index, h]
  rw [hbase]
  unfold input_text_by_xpath
  rcases h1 : b.waitClickable xpath with c1 | el <;> simp only [h1]
  · exact ⟨⟨1, by norm_num, by simp [inputTrace]⟩, Or.inr ⟨c1, rfl⟩⟩
  · rcases h2 : b.moveTo el with c2 | u2 <;> simp only [h2]
    · exact ⟨⟨2, by norm_num, by simp [inputTrace]⟩, Or.inr ⟨c2, rfl⟩⟩
    · rcases h3 : b.clearValue el with c3 | u3 <;> simp only [h3]
      · exact ⟨⟨3, by norm_num, by simp [inputTrace]⟩, Or.inr ⟨c3, rfl⟩⟩
      · rcases h4 : b.sendKeys el text with c4 | u4 <;> simp only [h4]
        · exact ⟨⟨4, by norm_num, by simp [inputTrace]⟩, Or.inr ⟨c4, rfl⟩⟩
        · exact ⟨⟨5, by norm_num, by simp [inputTrace]⟩, Or.inl (by simp)⟩

/-- Witness for C7 (amended) at index 0 of `stateOne` on the all-failing
driver. -/
theorem C7_input_single_attempt_witness :
    lookupSel stateOne.selector_map 0 = some "//input" ∧
    ((∃ n, n ≤ 5 ∧
      (input_text_by_index bAllFail 0 "hi" stateOne).2 =
        (inputTrace "//input" "hi").take n) ∧
    ((input_text_by_index bAllFail 0 "hi" stateOne).1 = .ok () ∨
      ∃ c, (input_text_by_index bAllFail 0 "hi" stateOne).1 =
        .error (.inputFailed "//input" c))) :=
  ⟨by decide, C7_input_single_attempt bAllFail 0 stateOne "hi" "//input" (by decide)⟩

/-- The result of one `DomService.get_clickable_elements()` pass (the
external Element Indexer), as consumed on service.py lines 136-139. -/
structure DomContent where
  items : List String
  selector_map : List (Int × String)
deriving DecidableEq

/-- Embeds `BrowserService.get_updated_state` (service.py lines 130-144,
the spec's `refreshState`): one indexing pass, then the url and title
reads, assembled into a fresh snapshot.  The trace lists every browser
interaction the method performs. -/
def get_updated_state (dom : DomContent) (url title : String) :
    BrowserState × List Ev :=
  ({ items := dom.items, selector_map := dom.selector_map,
     url := url, title := title },
   [.evGetClickableElements, .evReadUrl, .evReadTitle])

/-- `self.MINIMUM_WAIT_TIME = 0.5` (service.py line 32). -/
def MINIMUM_WAIT_TIME : ℚ := 1 / 2

/-- `self.MAXIMUM_WAIT_TIME = 5` (service.py line 33; the same bound 5 is
the literal timeout passed to WebDriverWait on line 112). -/
def MAXIMUM_WAIT_TIME : ℚ := 5

/-- Embeds `WebDriverWait(driver, 5).until(readyState == complete)`
(service.py lines 112-114).  `ready` is the time at which the readiness
signal resolves, measured from the start of the wait (`none` when it never
resolves).  Returns the outcome (`error` = TimeoutException raised) and
the time the poll blocked. -/
def readinessPoll (ready : Option ℚ) : Except String Unit × ℚ :=
  match ready with
  | some t =>
    if t ≤ MAXIMUM_WAIT_TIME then (.ok (), t)
    else (.error "TimeoutException", MAXIMUM_WAIT_TIME)
  | none => (.error "TimeoutException", MAXIMUM_WAIT_TIME)

/-- Timing behaviour of one `wait_for_page_load` call. -/
structure PageLoadRun where
  /-- Time the readiness poll took (`elapsed` on line 119). -/
  elapsed : ℚ
  /-- Extra time slept afterwards (lines 120, 127-128). -/
  slept : ℚ
  /-- Total time of the call. -/
  total : ℚ
  /-- Whether the poll raised a timeout that was absorbed (lines 115-116). -/
  timedOut : Bool
deriving DecidableEq

/-- Embeds `BrowserService.wait_for_page_load` (service.py lines 100-128):
poll readiness inside try/except (the exception is absorbed), compute
`remaining = max(MINIMUM_WAIT_TIME - elapsed, 0)` from the start of the
wait, and sleep the remaining time only when positive. -/
def wait_for_page_load (ready : Option ℚ) : PageLoadRun :=
  let poll := readinessPoll ready
  let timedOut : Bool := match poll.1 with | .ok _ => false | .error _ => true
  let elapsed := poll.2
  let remaining := max (MINIMUM_WAIT_TIME - elapsed) 0
  { elapsed := elapsed
    slept := if 0 < remaining then remaining else 0
    total := elapsed + (if 0 < remaining then remaining else 0)
    timedOut := timedOut }

/-- Helper: the conditional sleep always sleeps exactly the clamped
remaining time. -/
theorem sleep_eq_clamped (r : ℚ) :
    (if 0 < max r 0 then max r 0 else 0) = max r 0 := by
  rcases lt_or_le 0 (max r 0) with h | h
  · simp [h]
  · have h0 : max r 0 = 0 := le_antisymm h (le_max_right r 0)
    simp [h0]

/-- C6: the readiness poll never blocks longer than `MAXIMUM_WAIT_TIME`
(5 time units), whether or not the signal ever resolves; and a poll
timeout is absorbed, never surfaced: the observable timing of
`wait_for_page_load` depends only on how long the poll blocked, not on
whether it succeeded or raised, so a run whose poll timed out is
indistinguishable from one whose poll succeeded after the same time. -/
theorem C6_poll_bounded_timeout_absorbed (ready r2 : Option ℚ)
    (h : (readinessPoll ready).2 = (readinessPoll r2).2) :
    (readinessPoll ready).2 ≤ MAXIMUM_WAIT_TIME ∧
    (wait_for_page_load ready).elapsed = (wait_for_page_load r2).elapsed ∧
    (wait_for_page_load ready).slept = (wait_for_page_load r2).slept ∧
    (wait_for_page_load ready).total = (wait_for_page_load r2).total := by
  refine ⟨?_, ?_, ?_, ?_⟩
  · rcases ready with _ | t
    · simp [readinessPoll]
    · by_cases ht : t ≤ MAXIMUM_WAIT_TIME <;> simp [readinessPoll, ht]
  all_goals simp [wait_for_page_load, h]

/-- Witness for C6: a poll that succeeds exactly at the bound and a poll
that never resolves block equally long and produce identical timing. -/
theorem C6_poll_bounded_timeout_absorbed_witness :
    (readinessPoll (some 5)).2 = (readinessPoll none).2 ∧
    ((readinessPoll (some 5)).2 ≤ MAXIMUM_WAIT_TIME ∧
     (wait_for_page_load (some 5)).elapsed = (wait_for_page_load none).elapsed ∧
     (wait_for_page_load (some 5)).slept = (wait_for_page_load none).slept ∧
     (wait_for_page_load (some 5)).total = (wait_for_page_load none).total) :=
  ⟨by norm_num [readinessPoll, MAXIMUM_WAIT_TIME],
   C6_poll_bounded_timeout_absorbed (some 5) none
     (by norm_num [readinessPoll, MAXIMUM_WAIT_TIME])⟩

/-- Counterexample to C5 as stated: `get_updated_state` (the spec's
`refreshState`) performs no page-ready synchronization at all.  Its
interaction trace on a concrete run is exactly the indexing pass and the
url and title reads; in particular it contains no `evPageLoad`, so no
0.5-unit minimum delay is enforced by `refreshState` itself. -/
theorem C5_refresh_no_sync_cex :
    (get_updated_state ⟨[], []⟩ "u" "t").2 =
      [Ev.evGetClickableElements, Ev.evReadUrl, Ev.evReadTitle] ∧
    Ev.evPageLoad ∉ (get_updated_state ⟨[], []⟩ "u" "t").2 := by decide

/-- C5 (amended): the page-ready synchronization (`wait_for_page_load`,
which is invoked after navigations and actions, not by `refreshState`
itself) never returns in under 0.5 time units even when readiness
resolves instantly: the total time equals the maximum of the minimum
settle delay and the poll time, only the remaining time up to the minimum
is slept, and nothing is slept when the poll already took at least the
minimum. -/
theorem C5_minimum_wait (ready : Option ℚ) :
    MINIMUM_WAIT_TIME ≤ (wait_for_page_load ready).total ∧
    (wait_for_page_load ready).total =
      max MINIMUM_WAIT_TIME (wait_for_page_load ready).elapsed ∧
    (wait_for_page_load ready).slept =
      max (MINIMUM_WAIT_TIME - (wait_for_page_load ready).elapsed) 0 ∧
    (MINIMUM_WAIT_TIME ≤ (wait_for_page_load ready).elapsed →
      (wait_for_page_load ready).slept = 0) := by
  have htot : ∀ e : ℚ, e + max (MINIMUM_WAIT_TIME - e) 0 =
      max MINIMUM_WAIT_TIME e := by
    intro e
    rw [← max_add_add_left e (MINIMUM_WAIT_TIME - e) 0]
    ring_nf
  constructor
  · simp only [wait_for_page_load, sleep_eq_clamped, htot]
    exact le_max_left _ _
  constructor
  · simp only [wait_for_page_load, sleep_eq_clamped, htot]
  constructor
  · simp only [wait_for_page_load, sleep_eq_clamped]
  · intro he
    simp only [wait_for_page_load, sleep_eq_clamped] at he ⊢
    have : MINIMUM_WAIT_TIME - (readinessPoll ready).2 ≤ 0 := by linarith
    simp [max_eq_right this]

/-- Witness for C5 (amended): with the readiness signal resolving
instantly the call still takes the full 0.5-unit minimum, and with a slow
poll (2 time units) nothing extra is slept. -/
theorem C5_minimum_wait_witness :
    MINIMUM_WAIT_TIME ≤ (wait_for_page_load (some 0)).total ∧
    MINIMUM_WAIT_TIME ≤ (wait_for_page_load (some 2)).elapsed ∧
    (wait_for_page_load (some 2)).slept = 0 :=
  ⟨(C5_minimum_wait (some 0)).1,
   by norm_num [wait_for_page_load, readinessPoll, MINIMUM_WAIT_TIME, MAXIMUM_WAIT_TIME],
   (C5_minimum_wait (some 2)).2.2.2
     (by norm_num [wait_for_page_load, readinessPoll, MINIMUM_WAIT_TIME, MAXIMUM_WAIT_TIME])⟩

/-- Session-level browser events: creating a connection (one full `init()`
with its anti-detection configuration) and quitting one. -/
inductive SEv where
  | create (id : Nat)
  | quit (id : Nat)
deriving DecidableEq

/-- The lifecycle state of one `BrowserService` instance.  `driver` is the
`self.driver` field; `nextId` supplies fresh connection handles; `live`
lists the handles of connections created and not yet quit (a launched
Chrome driver stays alive until `quit()` is called on it). -/
structure SessionState where
  driver : Option Nat
  nextId : Nat
  live : List Nat
deriving DecidableEq

/-- A freshly constructed `BrowserService` (`__init__`, line 30:
`self.driver = None`). -/
def freshSession : SessionState := ⟨none, 0, []⟩

/-- Embeds `BrowserService.init` (service.py lines 35-93): unconditionally
creates a new configured connection and assigns it to `self.driver`,
without quitting any previously assigned connection.  Returns the handle,
the new state and the events. -/
def initS (s : SessionState) : Nat × SessionState × List SEv :=
  (s.nextId,
   { driver := some s.nextId, nextId := s.nextId + 1, live := s.live ++ [s.nextId] },
   [.create s.nextId])

/-- Embeds `BrowserService._get_driver` (service.py lines 95-98): return
the held connection, lazily creating one through `init` when absent. -/
def getDriverS (s : SessionState) : Nat × SessionState × List SEv :=
  match s.driver with
  | some d => (d, s, [])
  | none => initS s

/-- Embeds `BrowserService.close` (service.py lines 146-149):
`driver = self._get_driver(); driver.quit(); self.driver = None`.
`qf d` tells whether `quit()` on connection `d` raises; when it does, the
exception propagates and `self.driver = None` is not executed. -/
def closeS (qf : Nat → Bool) (s : SessionState) :
    Except String Unit × SessionState × List SEv :=
  let g := getDriverS s
  if qf g.1 then (.error "quit raised", g.2.1, g.2.2)
  else (.ok (),
    { g.2.1 with driver := none, live := (g.2.1).live.erase g.1 },
    g.2.2 ++ [.quit g.1])

/-- Embeds `BrowserService.__del__` (service.py lines 151-156): when the
owner discards the instance, the runtime invokes `__del__`, which calls
`close()` only when a connection is held.  CPython suppresses any
exception escaping `__del__` (it is written to stderr at most, never
propagated to the owner); the embedding encodes that runtime rule by
discarding the `Except` outcome of `close`. -/
def delS (qf : Nat → Bool) (s : SessionState) : SessionState × List SEv :=
  match s.driver with
  | none => (s, [])
  | some _ => ((closeS qf s).2.1, (closeS qf s).2.2)

/-- The caller-facing lifecycle operations of one Session (spec section 6):
explicit `init`, lazy connection access (every navigation, snapshot or
action goes through `_get_driver`), explicit `close`, implicit teardown. -/
inductive SOp where
  | opInit
  | opGetDriver
  | opClose
  | opDel
deriving DecidableEq

/-- One lifecycle operation as a state transition with its events. -/
def runOp (qf : Nat → Bool) (s : SessionState) : SOp → SessionState × List SEv
  | .opInit => ((initS s).2.1, (initS s).2.2)
  | .opGetDriver => ((getDriverS s).2.1, (getDriverS s).2.2)
  | .opClose => ((closeS qf s).2.1, (closeS qf s).2.2)
  | .opDel => delS qf s

/-- A sequence of lifecycle operations from a given state. -/
def runOps (qf : Nat → Bool) : SessionState → List SOp → SessionState × List SEv
  | s, [] => (s, [])
  | s, op :: rest =>
    ((runOps qf (runOp qf s op).1 rest).1,
     (runOp qf s op).2 ++ (runOps qf (runOp qf s op).1 rest).2)

/-- A quit oracle on which `quit()` never raises. -/
def qfNone : Nat → Bool := fun _ => false

/-- C4 (code bug evaluation): closing an already-closed session is not a
no-op.  After one open and one close the session holds no connection, yet
the second `close` lazily creates a brand-new connection through
`_get_driver` and quits it: its event list is `[create 1, quit 1]`, not
empty. -/
theorem C4_second_close_creates_connection :
    (closeS qfNone ((getDriverS freshSession).2.1)).2.1 =
      (⟨none, 1, []⟩ : SessionState) ∧
    (closeS qfNone (⟨none, 1, []⟩ : SessionState)).2.2 =
      [SEv.create 1, SEv.quit 1] ∧
    (closeS qfNone (⟨none, 1, []⟩ : SessionState)).2.2 ≠ ([] : List SEv) ∧
    (closeS qfNone (⟨none, 1, []⟩ : SessionState)).2.1.driver = none := by
  refine ⟨by rfl, by rfl, ?_, by rfl⟩
  decide

/-- Counterexample to C9 as stated: two explicit `init()` calls leave two
live connections.  The second `init` overwrites `self.driver` without
quitting the first connection, which stays alive. -/
theorem C9_double_init_two_live_cex :
    (runOps qfNone freshSession [SOp.opInit, SOp.opInit]).1 =
      (⟨some 1, 2, [0, 1]⟩ : SessionState) ∧
    ((runOps qfNone freshSession [SOp.opInit, SOp.opInit]).1).live.length = 2 := by
  refine ⟨by rfl, by rfl⟩

/-- The lifecycle invariant: the session tracks no connection and none is
live, or it tracks exactly the one live connection. -/
def SessInv (s : SessionState) : Prop :=
  (s.driver = none ∧ s.live = []) ∨ ∃ d, s.driver = some d ∧ s.live = [d]

/-- Helper: every lifecycle operation except an explicit `init` preserves
the single-connection invariant. -/
theorem sessInv_runOp (qf : Nat → Bool) (s : SessionState) (op : SOp)
    (hop : op ≠ SOp.opInit) (h : SessInv s) : SessInv (runOp qf s op).1 := by
  rcases h with ⟨hd, hl⟩ | ⟨d, hd, hl⟩ <;> cases op <;>
    simp_all [runOp, initS, getDriverS, closeS, delS, SessInv] <;>
    (try by_cases hq : qf s.nextId = true) <;>
    (try by_cases hq2 : qf d = true) <;>
    simp_all

/-- Helper: sequences avoiding explicit `init` preserve the invariant. -/
theorem sessInv_runOps (qf : Nat → Bool) (ops : List SOp) :
    ∀ s : SessionState, SOp.opInit ∉ ops → SessInv s →
      SessInv (runOps qf s ops).1 := by
  induction ops with
  | nil => intro s _ h; exact h
  | cons op rest ih =>
    intro s hops h
    have hop : op ≠ SOp.opInit := by
      intro he; exact hops (he ▸ List.mem_cons_self op rest)
    have hrest : SOp.opInit ∉ rest := fun hm => hops (List.mem_cons_of_mem op hm)
    exact ih _ hrest (sessInv_runOp qf s op hop h)

/-- C9 (amended): a Session whose lifecycle runs through lazy connection
access, close and teardown (never an explicit repeated `init()`) holds at
most one live connection after any operation sequence; a `close` clears
the tracked connection, and the next access re-creates one. -/
theorem C9_at_most_one_connection (qf : Nat → Bool) (ops : List SOp)
    (h : SOp.opInit ∉ ops) :
    ((runOps qf freshSession ops).1).live.length ≤ 1 := by
  have hinv : SessInv (runOps qf freshSession ops).1 :=
    sessInv_runOps qf ops freshSession h (Or.inl ⟨rfl, rfl⟩)
  rcases hinv with ⟨_, hl⟩ | ⟨d, _, hl⟩ <;> simp [hl]

/-- Witness for C9 (amended) on the sequence use, close, use again. -/
theorem C9_at_most_one_connection_witness :
    SOp.opInit ∉ [SOp.opGetDriver, SOp.opClose, SOp.opGetDriver] ∧
    ((runOps qfNone freshSession
      [SOp.opGetDriver, SOp.opClose, SOp.opGetDriver]).1).live.length ≤ 1 :=
  ⟨by decide,
   C9_at_most_one_connection qfNone
     [SOp.opGetDriver, SOp.opClose, SOp.opGetDriver] (by decide)⟩

/-- C10: implicit teardown (`__del__`) is a no-op when no connection is
held, invokes `close()` exactly when one is held, and never propagates a
failure to the owner: its outcome is the post-close state and events with
the close exception discarded, for every quit oracle, including one on
which `quit()` raises. -/
theorem C10_teardown_swallows (qf : Nat → Bool) (s : SessionState) :
    (s.driver = none → delS qf s = (s, [])) ∧
    (∀ d, s.driver = some d →
      delS qf s = ((closeS qf s).2.1, (closeS qf s).2.2)) := by
  constructor
  · intro h; simp [delS, h]
  · intro d h; simp [delS, h]

/-- Witness for C10 on a session holding connection 0 and a quit oracle
that always raises: teardown still returns, with the close outcome
discarded. -/
theorem C10_teardown_swallows_witness :
    ((⟨some 0, 1, [0]⟩ : SessionState)).driver = some 0 ∧
    delS (fun _ => true) (⟨some 0, 1, [0]⟩ : SessionState) =
      ((closeS (fun _ => true) (⟨some 0, 1, [0]⟩ : SessionState)).2.1,
       (closeS (fun _ => true) (⟨some 0, 1, [0]⟩ : SessionState)).2.2) :=
  ⟨rfl, (C10_teardown_swallows (fun _ => true) ⟨some 0, 1, [0]⟩).2 0 rfl⟩

end BrowserUse
